import Mathlib

/-!
Verification of the identity-registry pallet (pallets/custom-pallet/src/lib.rs).

The pallet keeps two storage maps:
  * `Identities : AccountId → Option IdentityInfo`
  * `Verifications : AccountId → AccountId → Option Bool`
and exposes three dispatchable calls: `create_or_update_identity`,
`verify_identity` and `revoke_identity`.  We embed the calls as pure
functions from a `PalletState` to `Except Error (PalletState × List Event)`;
the events list records the `deposit_event` calls a successful execution
performs.  A failed dispatch in the runtime leaves storage untouched and
emits nothing, which `applyCall` makes explicit.
-/

namespace CustomPallet

/-- A byte, the element type of the pallet's Vec<u8> fields. -/
abbrev Byte := Fin 256

/-- The pallet's configuration constants (the Config trait's three
length limits `MaxNameLength`, `MaxEmailLength`, `MaxDocHashLength`). -/
structure Config where
  maxNameLength : Nat
  maxEmailLength : Nat
  maxDocHashLength : Nat
  deriving DecidableEq

/-- The per-account identity record, struct `IdentityInfo` in the source.
The three byte fields are stored as BoundedVec values; here they are plain
lists and the length bound is enforced by `boundedVecTryFrom` at the only
point where records are built. -/
structure IdentityInfo where
  name : List Byte
  email : List Byte
  document_hash : List Byte
  revoked : Bool
  deriving DecidableEq

/-- The pallet's `Error` enum (identity errors together with the counter
feature's variants, kept for fidelity to the source enum). -/
inductive Error where
  | CounterValueExceedsMax
  | CounterValueBelowZero
  | CounterOverflow
  | UserInteractionOverflow
  | IdentityNotFound
  | AlreadyVerified
  | NotAuthorized
  | NameTooLong
  | EmailTooLong
  | DocHashTooLong
  deriving DecidableEq

/-- The pallet's `Event` enum restricted to the identity subsystem
(the counter events cannot be emitted by the three identity calls). -/
inductive Event (A : Type) where
  | IdentityCreated (who : A)
  | IdentityVerified (validator : A) (target : A)
  | IdentityRevoked (who : A)
  deriving DecidableEq

/-- The identity-relevant storage of the pallet: the `Identities` map and
the `Verifications` double map, both OptionQuery. -/
structure PalletState (A : Type) where
  identities : A → Option IdentityInfo
  verifications : A → A → Option Bool

/-- Genesis storage: both maps empty. -/
def emptyState (A : Type) : PalletState A :=
  { identities := fun _ => none, verifications := fun _ _ => none }

/-- BoundedVec::<u8, Limit>::try_from: returns the same bytes when within
the limit and fails otherwise. -/
def boundedVecTryFrom (limit : Nat) (v : List Byte) : Option (List Byte) :=
  if v.length ≤ limit then some v else none

/-- Identities::insert — unconditional overwrite of one key. -/
def setIdentity {A : Type} [DecidableEq A] (s : PalletState A) (user : A)
    (info : IdentityInfo) : PalletState A :=
  { s with identities := fun a => if a = user then some info else s.identities a }

/-- Verifications::insert(validator, target, true). -/
def insertVerification {A : Type} [DecidableEq A] (s : PalletState A)
    (validator target : A) : PalletState A :=
  { s with verifications := fun v o =>
      if v = validator ∧ o = target then some true else s.verifications v o }

/-- Identities::mutate(user, |identity| if let Some(id) = identity
then id.revoked = true): sets the revoked flag in place when a record
exists and does nothing otherwise. -/
def mutateRevoke {A : Type} [DecidableEq A] (s : PalletState A) (user : A) :
    PalletState A :=
  { s with identities := fun a =>
      if a = user then (s.identities a).map (fun id => { id with revoked := true })
      else s.identities a }

/-- The create_or_update_identity call: bound-check the three fields (name,
then email, then document_hash, failing fast with the field's error),
build the record with revoked = false, overwrite the Identities entry and
emit IdentityCreated. -/
def create_or_update_identity {A : Type} [DecidableEq A] (cfg : Config)
    (s : PalletState A) (user : A) (name email document_hash : List Byte) :
    Except Error (PalletState A × List (Event A)) :=
  match boundedVecTryFrom cfg.maxNameLength name with
  | none => .error .NameTooLong
  | some bounded_name =>
    match boundedVecTryFrom cfg.maxEmailLength email with
    | none => .error .EmailTooLong
    | some bounded_email =>
      match boundedVecTryFrom cfg.maxDocHashLength document_hash with
      | none => .error .DocHashTooLong
      | some bounded_doc_hash =>
        let identity : IdentityInfo :=
          { name := bounded_name, email := bounded_email,
            document_hash := bounded_doc_hash, revoked := false }
        .ok (setIdentity s user identity, [Event.IdentityCreated user])

/-- The verify_identity call: require the target's identity to exist
(IdentityNotFound otherwise), require no prior verification by this
validator for this target (AlreadyVerified otherwise), then insert true
into Verifications and emit IdentityVerified. -/
def verify_identity {A : Type} [DecidableEq A] (s : PalletState A)
    (validator target : A) : Except Error (PalletState A × List (Event A)) :=
  if (s.identities target).isSome then
    if (s.verifications validator target).isSome then
      .error .AlreadyVerified
    else
      .ok (insertVerification s validator target,
           [Event.IdentityVerified validator target])
  else
    .error .IdentityNotFound

/-- The revoke_identity call: mutate the caller's record (no-op when
absent) and unconditionally emit IdentityRevoked; it never fails. -/
def revoke_identity {A : Type} [DecidableEq A] (s : PalletState A) (user : A) :
    Except Error (PalletState A × List (Event A)) :=
  .ok (mutateRevoke s user, [Event.IdentityRevoked user])

/-- One dispatchable call of the identity subsystem, with its
already-authenticated signed origin. -/
inductive Call (A : Type) where
  | create_or_update_identity (user : A) (name email document_hash : List Byte)
  | verify_identity (validator : A) (target : A)
  | revoke_identity (user : A)

/-- Dispatch a call against the current storage. -/
def dispatch {A : Type} [DecidableEq A] (cfg : Config) (s : PalletState A) :
    Call A → Except Error (PalletState A × List (Event A))
  | .create_or_update_identity u n e d => create_or_update_identity cfg s u n e d
  | .verify_identity v t => verify_identity s v t
  | .revoke_identity u => revoke_identity s u

/-- Transactional execution of one extrinsic: a successful dispatch commits
its new storage and events; a failed one leaves storage untouched and
emits nothing. -/
def applyCall {A : Type} [DecidableEq A] (cfg : Config) (s : PalletState A)
    (c : Call A) : PalletState A × List (Event A) :=
  match dispatch cfg s c with
  | .ok r => r
  | .error _ => (s, [])

/-- Execute a sequence of extrinsics from a starting storage. -/
def runCalls {A : Type} [DecidableEq A] (cfg : Config) (s : PalletState A)
    (cs : List (Call A)) : PalletState A :=
  cs.foldl (fun t c => (applyCall cfg t c).1) s

/-- Invariant: every stored identity record respects the three configured
maximum lengths at the byte level. -/
def BoundsOk {A : Type} (cfg : Config) (s : PalletState A) : Prop :=
  ∀ a r, s.identities a = some r →
    r.name.length ≤ cfg.maxNameLength ∧
    r.email.length ≤ cfg.maxEmailLength ∧
    r.document_hash.length ≤ cfg.maxDocHashLength

/-- Invariant: every present verification entry is the value true and its
identity owner has a stored identity record. -/
def VerificationOk {A : Type} (s : PalletState A) : Prop :=
  ∀ v a b, s.verifications v a = some b →
    b = true ∧ (s.identities a).isSome = true

/-- Fixture storage: account 0 holds an active record. -/
def stateActive0 : PalletState Nat :=
  { identities := fun a =>
      if a = 0 then
        some { name := [1], email := [2], document_hash := [3], revoked := false }
      else none,
    verifications := fun _ _ => none }

/-- Fixture storage: account 0 holds an active record and validator 1 has
verified it. -/
def stateVerified10 : PalletState Nat :=
  { identities := stateActive0.identities,
    verifications := fun v o => if v = 1 ∧ o = 0 then some true else none }

/-- Fixture storage: account 0 holds a revoked record. -/
def stateRevoked0 : PalletState Nat :=
  { identities := fun a =>
      if a = 0 then
        some { name := [9], email := [8], document_hash := [7], revoked := true }
      else none,
    verifications := fun _ _ => none }

theorem boundedVecTryFrom_some {limit : Nat} {v w : List Byte}
    (h : boundedVecTryFrom limit v = some w) : w = v ∧ v.length ≤ limit := by
  unfold boundedVecTryFrom at h
  split at h
  · exact ⟨(Option.some.injEq _ _ ▸ h).symm, by assumption⟩
  · exact absurd h (by simp)

theorem create_or_update_identity_ok {A : Type} [DecidableEq A] {cfg : Config}
    {s : PalletState A} {user : A} {name email document_hash : List Byte}
    {s' : PalletState A} {evs : List (Event A)}
    (h : create_or_update_identity cfg s user name email document_hash =
      .ok (s', evs)) :
    s' = setIdentity s user
      { name := name, email := email, document_hash := document_hash,
        revoked := false } ∧
    evs = [Event.IdentityCreated user] ∧
    name.length ≤ cfg.maxNameLength ∧ email.length ≤ cfg.maxEmailLength ∧
    document_hash.length ≤ cfg.maxDocHashLength := by
  unfold create_or_update_identity at h
  split at h
  · exact absurd h (by simp)
  · rename_i bn hbn
    split at h
    · exact absurd h (by simp)
    · rename_i be hbe
      split at h
      · exact absurd h (by simp)
      · rename_i bd hbd
        obtain ⟨rfl, hn⟩ := boundedVecTryFrom_some hbn
        obtain ⟨rfl, he⟩ := boundedVecTryFrom_some hbe
        obtain ⟨rfl, hd⟩ := boundedVecTryFrom_some hbd
        obtain ⟨h1, h2⟩ := Prod.mk.injEq .. ▸ Except.ok.injEq .. ▸ h
        exact ⟨h1.symm, h2.symm, hn, he, hd⟩

theorem verify_identity_ok {A : Type} [DecidableEq A] {s : PalletState A}
    {validator target : A} {s' : PalletState A} {evs : List (Event A)}
    (h : verify_identity s validator target = .ok (s', evs)) :
    s' = insertVerification s validator target ∧
    evs = [Event.IdentityVerified validator target] ∧
    (s.identities target).isSome = true ∧
    s.verifications validator target = none := by
  unfold verify_identity at h
  split at h
  · rename_i hid
    split at h
    · exact absurd h (by simp)
    · rename_i hver
      obtain ⟨h1, h2⟩ := Prod.mk.injEq .. ▸ Except.ok.injEq .. ▸ h
      exact ⟨h1.symm, h2.symm, hid, Option.not_isSome_iff_eq_none.mp hver⟩
  · exact absurd h (by simp)

theorem applyCall_preserves_BoundsOk {A : Type} [DecidableEq A] (cfg : Config)
    (s : PalletState A) (c : Call A) (h : BoundsOk cfg s) :
    BoundsOk cfg (applyCall cfg s c).1 := by
  cases c with
  | create_or_update_identity u n e d =>
    cases hres : create_or_update_identity cfg s u n e d with
    | error err => simpa only [applyCall, dispatch, hres] using h
    | ok r =>
      obtain ⟨s', evs⟩ := r
      obtain ⟨rfl, -, hn, he, hd⟩ := create_or_update_identity_ok hres
      simp only [applyCall, dispatch, hres]
      intro a r0 ha
      simp only [setIdentity] at ha
      by_cases hau : a = u
      · rw [if_pos hau] at ha
        obtain rfl := (Option.some.injEq _ _ ▸ ha).symm
        exact ⟨hn, he, hd⟩
      · rw [if_neg hau] at ha
        exact h a r0 ha
  | verify_identity v t =>
    cases hres : verify_identity s v t with
    | error err => simpa only [applyCall, dispatch, hres] using h
    | ok r =>
      obtain ⟨s', evs⟩ := r
      obtain ⟨rfl, -, -, -⟩ := verify_identity_ok hres
      simp only [applyCall, dispatch, hres]
      intro a r0 ha
      exact h a r0 ha
  | revoke_identity u =>
    simp only [applyCall, dispatch, revoke_identity]
    intro a r0 ha
    simp only [mutateRevoke] at ha
    by_cases hau : a = u
    · rw [if_pos hau] at ha
      cases hid : s.identities a with
      | none => rw [hid] at ha; exact absurd ha (by simp)
      | some old =>
        rw [hid] at ha
        obtain rfl := (Option.some.injEq _ _ ▸ ha).symm
        exact h a old hid
    · rw [if_neg hau] at ha
      exact h a r0 ha

theorem applyCall_preserves_VerificationOk {A : Type} [DecidableEq A]
    (cfg : Config) (s : PalletState A) (c : Call A) (h : VerificationOk s) :
    VerificationOk (applyCall cfg s c).1 := by
  cases c with
  | create_or_update_identity u n e d =>
    cases hres : create_or_update_identity cfg s u n e d with
    | error err => simpa only [applyCall, dispatch, hres] using h
    | ok r =>
      obtain ⟨s', evs⟩ := r
      obtain ⟨rfl, -, -, -, -⟩ := create_or_update_identity_ok hres
      simp only [applyCall, dispatch, hres]
      intro v a b hv
      obtain ⟨hb, hid⟩ := h v a b hv
      refine ⟨hb, ?_⟩
      simp only [setIdentity]
      by_cases hau : a = u
      · rw [if_pos hau]; rfl
      · rw [if_neg hau]; exact hid
  | verify_identity vl t =>
    cases hres : verify_identity s vl t with
    | error err => simpa only [applyCall, dispatch, hres] using h
    | ok r =>
      obtain ⟨s', evs⟩ := r
      obtain ⟨rfl, -, htgt, -⟩ := verify_identity_ok hres
      simp only [applyCall, dispatch, hres]
      intro v a b hv
      simp only [insertVerification] at hv
      by_cases hc : v = vl ∧ a = t
      · obtain ⟨rfl, rfl⟩ := hc
        rw [if_pos ⟨rfl, rfl⟩] at hv
        obtain rfl := (Option.some.injEq _ _ ▸ hv).symm
        exact ⟨rfl, htgt⟩
      · rw [if_neg hc] at hv
        exact h v a b hv
  | revoke_identity u =>
    simp only [applyCall, dispatch, revoke_identity]
    intro v a b hv
    obtain ⟨hb, hid⟩ := h v a b hv
    refine ⟨hb, ?_⟩
    simp only [mutateRevoke]
    by_cases hau : a = u
    · rw [if_pos hau]
      cases hida : s.identities a with
      | none => rw [hida] at hid; exact absurd hid (by simp)
      | some old => rfl
    · rw [if_neg hau]
      exact hid

theorem runCalls_preserves_BoundsOk {A : Type} [DecidableEq A] (cfg : Config)
    (cs : List (Call A)) :
    ∀ s : PalletState A, BoundsOk cfg s → BoundsOk cfg (runCalls cfg s cs) := by
  induction cs with
  | nil => exact fun s h => h
  | cons c cs ih =>
    intro s h
    simp only [runCalls, List.foldl_cons]
    exact ih _ (applyCall_preserves_BoundsOk cfg s c h)

theorem runCalls_preserves_VerificationOk {A : Type} [DecidableEq A]
    (cfg : Config) (cs : List (Call A)) :
    ∀ s : PalletState A, VerificationOk s → VerificationOk (runCalls cfg s cs) := by
  induction cs with
  | nil => exact fun s h => h
  | cons c cs ih =>
    intro s h
    simp only [runCalls, List.foldl_cons]
    exact ih _ (applyCall_preserves_VerificationOk cfg s c h)

theorem emptyState_BoundsOk {A : Type} (cfg : Config) :
    BoundsOk cfg (emptyState A) :=
  fun _ r h => absurd h (by simp [emptyState])

theorem emptyState_VerificationOk {A : Type} : VerificationOk (emptyState A) :=
  fun _ _ b h => absurd h (by simp [emptyState])

end CustomPallet

open CustomPallet

/-- C1: after create_or_update_identity(a, n, e, d) succeeds — from any
prior state of a — the stored record for a has name, email, document_hash
exactly n, e, d and revoked = false, and the IdentityCreated event is
emitted. -/
theorem create_or_update_identity_roundtrip {A : Type} [DecidableEq A]
    (cfg : Config) (s : PalletState A) (user : A)
    (name email document_hash : List Byte) {s' : PalletState A}
    {evs : List (Event A)}
    (h : create_or_update_identity cfg s user name email document_hash =
      .ok (s', evs)) :
    s'.identities user =
      some { name := name, email := email, document_hash := document_hash,
             revoked := false } ∧ evs = [Event.IdentityCreated user] := by
  unfold create_or_update_identity at h
  split at h
  · exact absurd h (by simp)
  · rename_i bn hbn
    split at h
    · exact absurd h (by simp)
    · rename_i be hbe
      split at h
      · exact absurd h (by simp)
      · rename_i bd hbd
        obtain ⟨rfl, -⟩ := boundedVecTryFrom_some hbn
        obtain ⟨rfl, -⟩ := boundedVecTryFrom_some hbe
        obtain ⟨rfl, -⟩ := boundedVecTryFrom_some hbd
        obtain ⟨h1, h2⟩ := Prod.mk.injEq .. ▸ Except.ok.injEq .. ▸ h
        subst h1 h2
        exact ⟨by simp [setIdentity], rfl⟩

/-- Witness for C1: a concrete run where account 0 already holds a revoked
record and re-creates its identity; the stored record is replaced wholesale
and revoked is cleared. -/
theorem create_or_update_identity_roundtrip_witness :
    (setIdentity stateRevoked0 0
      { name := [1, 2], email := [3], document_hash := [4, 5], revoked := false }).identities 0 =
      some { name := [1, 2], email := [3], document_hash := [4, 5], revoked := false } ∧
    ([Event.IdentityCreated 0] : List (Event Nat)) = [Event.IdentityCreated 0] :=
  create_or_update_identity_roundtrip ⟨8, 8, 8⟩ stateRevoked0 0 [1, 2] [3] [4, 5] rfl

/-- C2: when verify_identity(v, o) succeeds, the stored entry for (v, o)
is true; a second verify_identity(v, o) call fails with AlreadyVerified
and, executed transactionally, leaves the storage exactly as it was after
the first call — so no (v, o) pair ever holds two verifications. -/
theorem verify_identity_twice {A : Type} [DecidableEq A] (cfg : Config)
    (s : PalletState A) (validator target : A) {s₁ : PalletState A}
    {evs : List (Event A)}
    (h : verify_identity s validator target = .ok (s₁, evs)) :
    s₁.verifications validator target = some true ∧
    verify_identity s₁ validator target = .error .AlreadyVerified ∧
    applyCall cfg s₁ (.verify_identity validator target) = (s₁, []) := by
  unfold verify_identity at h
  split at h
  · rename_i hid
    split at h
    · exact absurd h (by simp)
    · obtain ⟨h1, -⟩ := Prod.mk.injEq .. ▸ Except.ok.injEq .. ▸ h
      subst h1
      refine ⟨by simp [insertVerification], ?_, ?_⟩
      · unfold verify_identity
        simp [insertVerification, hid]
      · unfold applyCall dispatch verify_identity
        simp [insertVerification, hid]
  · exact absurd h (by simp)

/-- Witness for C2: validator 1 verifies owner 0 on a state where 0 has an
identity; the inserted entry is true and the repeated call fails with
AlreadyVerified without touching storage. -/
theorem verify_identity_twice_witness :
    (insertVerification stateActive0 1 0).verifications 1 0 = some true ∧
    verify_identity (insertVerification stateActive0 1 0) 1 0 =
      .error .AlreadyVerified ∧
    applyCall ⟨8, 8, 8⟩ (insertVerification stateActive0 1 0)
      (.verify_identity 1 0) = (insertVerification stateActive0 1 0, []) :=
  verify_identity_twice ⟨8, 8, 8⟩ stateActive0 1 0 rfl

/-- C3: verify_identity(v, o) when o has no identity record fails with
IdentityNotFound, and the transactional execution leaves the whole
storage — in particular the verification relation — unchanged. -/
theorem verify_identity_not_found {A : Type} [DecidableEq A] (cfg : Config)
    (s : PalletState A) (validator target : A)
    (h : s.identities target = none) :
    verify_identity s validator target = .error .IdentityNotFound ∧
    applyCall cfg s (.verify_identity validator target) = (s, []) := by
  constructor
  · unfold verify_identity
    simp [h]
  · unfold applyCall dispatch verify_identity
    simp [h]

/-- Witness for C3: verifying account 5 on the empty storage fails with
IdentityNotFound and changes nothing. -/
theorem verify_identity_not_found_witness :
    (emptyState Nat).identities 5 = none ∧
    (verify_identity (emptyState Nat) 1 5 = .error .IdentityNotFound ∧
     applyCall ⟨8, 8, 8⟩ (emptyState Nat) (.verify_identity 1 5) = (emptyState Nat, [])) :=
  ⟨rfl, verify_identity_not_found ⟨8, 8, 8⟩ (emptyState Nat) 1 5 rfl⟩

/-- C6: any call whose dispatch returns an error has zero observable
effect when executed transactionally: the storage after equals the
storage before and no event is emitted. -/
theorem failed_call_no_effect {A : Type} [DecidableEq A] (cfg : Config)
    (s : PalletState A) (c : Call A) (e : Error)
    (h : dispatch cfg s c = .error e) :
    applyCall cfg s c = (s, []) := by
  unfold applyCall
  rw [h]

/-- Witness for C6: verify_identity on the empty storage fails and the
transactional execution returns the unchanged storage with no events. -/
theorem failed_call_no_effect_witness :
    dispatch ⟨8, 8, 8⟩ (emptyState Nat) (.verify_identity 1 5) =
      .error .IdentityNotFound ∧
    applyCall ⟨8, 8, 8⟩ (emptyState Nat) (.verify_identity 1 5) = (emptyState Nat, []) :=
  ⟨rfl, failed_call_no_effect ⟨8, 8, 8⟩ (emptyState Nat) (.verify_identity 1 5)
    .IdentityNotFound rfl⟩

/-- C7: a name longer than MaxNameLength makes create_or_update_identity
fail with the name-specific error NameTooLong, and the transactional
execution leaves any previously stored record for the caller unchanged. -/
theorem create_name_too_long {A : Type} [DecidableEq A] (cfg : Config)
    (s : PalletState A) (user : A) (name email document_hash : List Byte)
    (h : cfg.maxNameLength < name.length) :
    create_or_update_identity cfg s user name email document_hash =
      .error .NameTooLong ∧
    applyCall cfg s (.create_or_update_identity user name email document_hash) =
      (s, []) := by
  have hb : boundedVecTryFrom cfg.maxNameLength name = none := by
    unfold boundedVecTryFrom
    simp [Nat.not_le.mpr h]
  have h1 : create_or_update_identity cfg s user name email document_hash =
      .error .NameTooLong := by
    unfold create_or_update_identity
    rw [hb]
  refine ⟨h1, ?_⟩
  simp only [applyCall, dispatch]
  rw [h1]

/-- Witness for C7: an account holding a record submits a 3-byte name
against MaxNameLength = 2; the call fails with NameTooLong and its record
survives unchanged. -/
theorem create_name_too_long_witness :
    (2 : Nat) < ([1, 2, 3] : List Byte).length ∧
    (create_or_update_identity ⟨2, 8, 8⟩ stateActive0 0 [1, 2, 3] [4] [5] =
        .error .NameTooLong ∧
     applyCall ⟨2, 8, 8⟩ stateActive0
      (.create_or_update_identity 0 [1, 2, 3] [4] [5]) = (stateActive0, [])) :=
  ⟨by decide, create_name_too_long ⟨2, 8, 8⟩ stateActive0 0 [1, 2, 3] [4] [5] (by decide)⟩

/-- C8: revoke_identity by a caller that holds a record succeeds, emits
IdentityRevoked, sets exactly that record's revoked flag to true while
keeping its name, email and document_hash, and changes no other account's
record and no verification entry. -/
theorem revoke_identity_in_place {A : Type} [DecidableEq A]
    (s : PalletState A) (user : A) (r : IdentityInfo)
    (h : s.identities user = some r) :
    ∃ s', revoke_identity s user = .ok (s', [Event.IdentityRevoked user]) ∧
      s'.identities user =
        some { name := r.name, email := r.email,
               document_hash := r.document_hash, revoked := true } ∧
      (∀ b, b ≠ user → s'.identities b = s.identities b) ∧
      (∀ v o, s'.verifications v o = s.verifications v o) := by
  refine ⟨mutateRevoke s user, rfl, ?_, ?_, ?_⟩
  · simp [mutateRevoke, h]
  · intro b hb
    simp [mutateRevoke, hb]
  · intro v o
    rfl

/-- Witness for C8: account 0 holds an active record and validator 1 has
verified it; after revoke_identity(0) the record is revoked in place and
the verification entry survives. -/
theorem revoke_identity_in_place_witness :
    ∃ s', revoke_identity stateVerified10 0 =
        .ok (s', [Event.IdentityRevoked 0]) ∧
      s'.identities 0 =
        some { name := [1], email := [2], document_hash := [3], revoked := true } ∧
      (∀ b, b ≠ 0 → s'.identities b = stateVerified10.identities b) ∧
      (∀ v o, s'.verifications v o = stateVerified10.verifications v o) :=
  revoke_identity_in_place stateVerified10 0
    { name := [1], email := [2], document_hash := [3], revoked := false } rfl

/-- C9: revoke_identity by a caller with no stored record still succeeds
and still emits the IdentityRevoked event, while the caller's entry stays
absent afterward. -/
theorem revoke_identity_absent {A : Type} [DecidableEq A]
    (s : PalletState A) (user : A) (h : s.identities user = none) :
    ∃ s', revoke_identity s user = .ok (s', [Event.IdentityRevoked user]) ∧
      s'.identities user = none := by
  refine ⟨mutateRevoke s user, rfl, ?_⟩
  simp [mutateRevoke, h]

/-- Witness for C9: revoking on the empty storage succeeds, emits the
event, and account 4 still has no record. -/
theorem revoke_identity_absent_witness :
    ∃ s', revoke_identity (emptyState Nat) 4 =
        .ok (s', [Event.IdentityRevoked 4]) ∧
      s'.identities 4 = none :=
  revoke_identity_absent (emptyState Nat) 4 rfl

/-- C10: create_or_update_identity checks the bounds in the fixed order
name, email, document_hash: a too-long name always yields NameTooLong
whatever the other fields; with the name in bounds a too-long email yields
EmailTooLong whatever the document hash; and with name and email in bounds
a too-long document hash yields DocHashTooLong. -/
theorem create_bound_check_order {A : Type} [DecidableEq A] (cfg : Config)
    (s : PalletState A) (user : A) (name email document_hash : List Byte) :
    (cfg.maxNameLength < name.length →
      create_or_update_identity cfg s user name email document_hash =
        .error .NameTooLong) ∧
    (name.length ≤ cfg.maxNameLength → cfg.maxEmailLength < email.length →
      create_or_update_identity cfg s user name email document_hash =
        .error .EmailTooLong) ∧
    (name.length ≤ cfg.maxNameLength → email.length ≤ cfg.maxEmailLength →
      cfg.maxDocHashLength < document_hash.length →
      create_or_update_identity cfg s user name email document_hash =
        .error .DocHashTooLong) := by
  refine ⟨?_, ?_, ?_⟩
  · intro hn
    unfold create_or_update_identity boundedVecTryFrom
    simp [Nat.not_le.mpr hn]
  · intro hn he
    unfold create_or_update_identity boundedVecTryFrom
    simp [hn, Nat.not_le.mpr he]
  · intro hn he hd
    unfold create_or_update_identity boundedVecTryFrom
    simp [hn, he, Nat.not_le.mpr hd]

/-- Witness for C10: with both name and email over their limits the call
fails with NameTooLong, never EmailTooLong. -/
theorem create_bound_check_order_witness :
    create_or_update_identity ⟨2, 2, 8⟩ (emptyState Nat) 0
      [1, 2, 3] [4, 5, 6] [7] = .error .NameTooLong :=
  (create_bound_check_order ⟨2, 2, 8⟩ (emptyState Nat) 0
    [1, 2, 3] [4, 5, 6] [7]).1 (by decide)

/-- C4: in every state reachable from genesis by any sequence of the three
identity calls, every stored identity record respects the configured
maximum lengths of name, email and document_hash, and each single
transactional call preserves this invariant. -/
theorem identity_bounds_invariant {A : Type} [DecidableEq A] (cfg : Config) :
    (∀ (s : PalletState A) (c : Call A),
      BoundsOk cfg s → BoundsOk cfg (applyCall cfg s c).1) ∧
    (∀ cs : List (Call A), BoundsOk cfg (runCalls cfg (emptyState A) cs)) :=
  ⟨fun s c h => applyCall_preserves_BoundsOk cfg s c h,
   fun cs => runCalls_preserves_BoundsOk cfg cs (emptyState A)
     (emptyState_BoundsOk cfg)⟩

/-- Witness for C4: after one concrete create call the stored record for
account 0 is within all three limits. -/
theorem identity_bounds_invariant_witness :
    (runCalls ⟨8, 8, 8⟩ (emptyState Nat)
      [Call.create_or_update_identity 0 [1] [2, 3] [4]]).identities 0 =
      some { name := [1], email := [2, 3], document_hash := [4], revoked := false } ∧
    (([1] : List Byte).length ≤ 8 ∧ ([2, 3] : List Byte).length ≤ 8 ∧
     ([4] : List Byte).length ≤ 8) :=
  ⟨rfl, (@identity_bounds_invariant Nat _ ⟨8, 8, 8⟩).2
    [Call.create_or_update_identity 0 [1] [2, 3] [4]] 0
    { name := [1], email := [2, 3], document_hash := [4], revoked := false } rfl⟩

/-- C5: in every state reachable from genesis, a present verification
entry for (v, a) holds the value true and account a's identity record is
present — records are never deleted, so this covers the insertion state
and every later one; each single transactional call preserves it. -/
theorem verification_implies_identity {A : Type} [DecidableEq A] (cfg : Config) :
    (∀ (s : PalletState A) (c : Call A),
      VerificationOk s → VerificationOk (applyCall cfg s c).1) ∧
    (∀ cs : List (Call A), VerificationOk (runCalls cfg (emptyState A) cs)) :=
  ⟨fun s c h => applyCall_preserves_VerificationOk cfg s c h,
   fun cs => runCalls_preserves_VerificationOk cfg cs (emptyState A)
     emptyState_VerificationOk⟩

/-- Witness for C5: after account 0 creates an identity and validator 1
verifies it, the entry (1, 0) is true and account 0's record is present. -/
theorem verification_implies_identity_witness :
    (runCalls ⟨8, 8, 8⟩ (emptyState Nat)
      [Call.create_or_update_identity 0 [1] [2] [3],
       Call.verify_identity 1 0]).verifications 1 0 = some true ∧
    (true = true ∧
     ((runCalls ⟨8, 8, 8⟩ (emptyState Nat)
       [Call.create_or_update_identity 0 [1] [2] [3],
        Call.verify_identity 1 0]).identities 0).isSome = true) :=
  ⟨rfl, (@verification_implies_identity Nat _ ⟨8, 8, 8⟩).2
    [Call.create_or_update_identity 0 [1] [2] [3], Call.verify_identity 1 0]
    1 0 true rfl⟩
